import Mathlib

/-!
Verification of the statsd collector (`stats/statsd/common/collector.go`).

The collector buffers metric samples and periodically forwards them to a
statsd network client.  We give a shallow embedding of the Go source:

* `Sample`, `MetricType` — the data points buffered by the collector.
  Go's `stats.MetricType` is an `int`-based enumeration with the named
  constants `Counter`, `Gauge`, `Trend`, `Rate`, so we embed it as `Int`.
* Float64 sample values are embedded as exact rationals (`Rat`); the two
  operations the source performs on them — comparison with zero and the
  Go conversion `int64(v)`, which truncates toward zero — have the same
  semantics on rationals (NaN/overflow behaviour is outside the model).
* Calls into the `statsd.Client` collaborator are recorded as a trace of
  `ClientCall` values; the client's fallibility is an oracle
  `Oracle : ClientCall → Option String` giving the error (if any) each
  call returns.
* Stateful operations (`Collect`, `pushMetrics`, `Run`) become explicit
  state passing over the buffer, with the emitted client calls and the
  warning/error log lines returned alongside the new state.
-/

/-- Go `stats.MetricType` is an `int`-based enum; embedded as `Int`. -/
abbrev MetricType := Int

/-- `stats.Counter` (first constant of the `iota` block). -/
def Counter : MetricType := 0

/-- `stats.Gauge`. -/
def Gauge : MetricType := 1

/-- `stats.Trend`. -/
def Trend : MetricType := 2

/-- `stats.Rate`. -/
def Rate : MetricType := 3

/-- Go `map[string]string`, embedded as an association list. -/
abbrev Tags := List (String × String)

/-- Go map indexing `m[k]` on a `map[string]string`: the zero value `""`
when the key is absent. -/
def lookupTag (tags : Tags) (k : String) : String :=
  match tags.find? (fun p => p.1 == k) with
  | some p => p.2
  | none => ""

/-- The statsd package's buffered data point (`Sample` in the Go source's
package): metric type, metric name, float64 value and tags. -/
structure Sample where
  type : MetricType
  Metric : String
  Value : Rat
  Tags : Tags
deriving DecidableEq

/-- An upstream `stats.Sample` as far as this collector reads it: the
metric's name and type, the value and the tag map. -/
structure StatsSample where
  metricName : String
  metricType : MetricType
  value : Rat
  tags : Tags
deriving DecidableEq

/-- Modelled from the spec: `generateDataPoint` lives in the statsd common
package but outside the provided source.  Per spec section 3, a `Sample`
is "a single forwarded measurement: metric (name string), value (float),
kind, tags", copied from the upstream sample at ingestion and immutable
once created. -/
def generateDataPoint (s : StatsSample) : Sample :=
  { type := s.metricType, Metric := s.metricName, Value := s.value, Tags := s.tags }

/-- One call into the `statsd.Client` collaborator. -/
inductive ClientCall where
  | count (name : String) (delta : Int) (tags : List String) (rate : Rat)
  | timing (name : String) (value : Rat) (tags : List String) (rate : Rat)
  | gauge (name : String) (value : Rat) (tags : List String) (rate : Rat)
  | flush
  | close
deriving DecidableEq

/-- The error, if any, that the network client returns for a call. -/
abbrev Oracle := ClientCall → Option String

/-- The collector's injected `FilterTags` function; `none` embeds the nil
Go function value. -/
abbrev TagFilter := Option (Tags → List String)

/-- The tag list `dispatch` computes before the kind switch: nil unless a
filter is configured. -/
def tagListOf (ft : TagFilter) (tags : Tags) : List String :=
  match ft with
  | none => []
  | some f => f tags

/-- Go's `int64(v)` conversion on a float64: truncation toward zero. -/
def truncToInt (q : Rat) : Int :=
  q.num.sign * (q.num.natAbs / q.den : Nat)

/-- `checkToString`: derived metric name for a Rate sample carrying a
check tag; label `pass` unless the value equals zero. -/
def checkToString (check : String) (value : Rat) : String :=
  let label := if value = 0 then "fail" else "pass"
  "check." ++ check ++ "." ++ label

/-- The client calls `dispatch` makes for one sample: the kind switch of
`Collector.dispatch`.  A kind outside the four cases matches no case. -/
def dispatchCalls (ft : TagFilter) (entry : Sample) : List ClientCall :=
  let tagList := tagListOf ft entry.Tags
  if entry.type = Counter then
    [ClientCall.count entry.Metric (truncToInt entry.Value) tagList 1]
  else if entry.type = Trend then
    [ClientCall.timing entry.Metric entry.Value tagList 1]
  else if entry.type = Gauge then
    [ClientCall.gauge entry.Metric entry.Value tagList 1]
  else if entry.type = Rate then
    (let check := lookupTag entry.Tags "check"
     if check ≠ "" then
       [ClientCall.count (checkToString check entry.Value) 1 tagList 1]
     else
       [ClientCall.count entry.Metric (truncToInt entry.Value) tagList 1])
  else []

/-- The `err` variable at the end of `dispatch`'s switch: the error of the
single emission call, or `none` when no case matched. -/
def dispatchErr (o : Oracle) (ft : TagFilter) (entry : Sample) : Option String :=
  match dispatchCalls ft entry with
  | [c] => o c
  | _ => none

/-- The warning `dispatch` logs when the emission call failed. -/
def dispatchLog (o : Oracle) (ft : TagFilter) (entry : Sample) : Option String :=
  (dispatchErr o ft entry).map
    (fun e => "Error while sending metric " ++ entry.Metric ++ ": " ++ e)

/-- What `Collector.commit` returns and does: the client calls it made,
the warnings dispatch logged, and the error `commit` returns. -/
structure CommitOut where
  calls : List ClientCall
  logs : List String
  err : Option String
deriving DecidableEq

/-- The `for` loop of `commit`: dispatch each entry in order, collecting
calls and per-sample warnings. -/
def commitLoop (o : Oracle) (ft : TagFilter) : List Sample → List ClientCall × List String
  | [] => ([], [])
  | e :: rest =>
    let r := commitLoop o ft rest
    (dispatchCalls ft e ++ r.1, (dispatchLog o ft e).toList ++ r.2)

/-- `Collector.commit`: dispatch every entry, then `Client.Flush()`,
returning the flush error. -/
def commit (o : Oracle) (ft : TagFilter) (data : List Sample) : CommitOut :=
  let r := commitLoop o ft data
  { calls := r.1 ++ [ClientCall.flush], logs := r.2, err := o ClientCall.flush }

/-- Result of one `pushMetrics` invocation. -/
structure PushOut where
  buffer : List Sample
  drained : List Sample
  calls : List ClientCall
  logs : List String
deriving DecidableEq

/-- `Collector.pushMetrics`: early return on an empty buffer; otherwise
swap the buffer out, commit it, and log a commit error. -/
def pushMetrics (o : Oracle) (ft : TagFilter) (buf : List Sample) : PushOut :=
  if buf.isEmpty then
    { buffer := buf, drained := [], calls := [], logs := [] }
  else
    let out := commit o ft buf
    { buffer := []
      drained := buf
      calls := out.calls
      logs := out.logs ++ (out.err.map (fun e => "Could not commit a batch: " ++ e)).toList }

/-- `Collector.Collect`: flatten the containers, convert each sample with
`generateDataPoint`, and append to the buffer when non-empty. -/
def collect (buf : List Sample) (containers : List (List StatsSample)) : List Sample :=
  let pointSamples := containers.flatten.map generateDataPoint
  if pointSamples.length > 0 then buf ++ pointSamples else buf

/-- The configuration fields the collector reads. -/
structure Config where
  Addr : String
  Namespace : String
  BufferSize : Int
  PushInterval : Int
deriving DecidableEq

/-- The observable state of a constructed `statsd.Client`: the address and
buffer-size hint it was built from, and its `Namespace` prefix field. -/
structure ClientState where
  addr : String
  bufferSize : Int
  Namespace : String
deriving DecidableEq

/-- `statsd.NewBuffered` is an external constructor that may fail; it is a
parameter of the model. -/
abbrev NewBuffered := String → Int → Except String ClientState

/-- What `Collector.Init` returns and leaves in the `Client` field. -/
structure InitOut where
  err : Option String
  client : Option ClientState
deriving DecidableEq

/-- `Collector.Init`: reject an empty address before constructing any
client; otherwise build the client and set its namespace prefix when one
is configured. -/
def Init (nb : NewBuffered) (cfg : Config) (client0 : Option ClientState) : InitOut :=
  if cfg.Addr = "" then
    { err := some ("connection string is invalid. Received: " ++ cfg.Addr)
      client := client0 }
  else
    match nb cfg.Addr cfg.BufferSize with
    | Except.error e => { err := some e, client := none }
    | Except.ok cl =>
      if cfg.Namespace ≠ "" then
        { err := none, client := some { cl with Namespace := cfg.Namespace } }
      else
        { err := none, client := some cl }

/-- One operation of the buffer's interface: a producer's `Collect` call
or one `pushMetrics` drain (a ticker tick or the final flush). -/
inductive Op where
  | collect (containers : List (List StatsSample))
  | push
deriving DecidableEq

/-- Accumulated observable history of a sequence of buffer operations. -/
structure TraceState where
  buffer : List Sample
  drains : List (List Sample)
  calls : List ClientCall
  logs : List String
deriving DecidableEq

/-- The collector's state before any operation. -/
def initTrace : TraceState := { buffer := [], drains := [], calls := [], logs := [] }

/-- Effect of one buffer operation on the trace state. -/
def stepOp (o : Oracle) (ft : TagFilter) (st : TraceState) : Op → TraceState
  | Op.collect cs => { st with buffer := collect st.buffer cs }
  | Op.push =>
    let p := pushMetrics o ft st.buffer
    { buffer := p.buffer
      drains := st.drains ++ [p.drained]
      calls := st.calls ++ p.calls
      logs := st.logs ++ p.logs }

/-- Run a sequence of buffer operations from a state. -/
def runOps (o : Oracle) (ft : TagFilter) (st : TraceState) : List Op → TraceState
  | [] => st
  | op :: ops => runOps o ft (stepOp o ft st op) ops

/-- All samples a sequence of operations ingests, in order. -/
def ingested : List Op → List Sample
  | [] => []
  | Op.collect cs :: ops => cs.flatten.map generateDataPoint ++ ingested ops
  | Op.push :: ops => ingested ops

/-- One wake-up of the system around `Collector.Run`: a concurrent
producer's `Collect`, a ticker tick, or the context's cancellation. -/
inductive SysEvent where
  | ingest (containers : List (List StatsSample))
  | tick
  | cancel
deriving DecidableEq

/-- State of the running collector: the buffer, the client calls and log
lines so far, and whether `Run` has returned. -/
structure RunState where
  buffer : List Sample
  calls : List ClientCall
  logs : List String
  returned : Bool
deriving DecidableEq

/-- The state in which `Run` starts. -/
def initRun : RunState := { buffer := [], calls := [], logs := [], returned := false }

/-- Effect of one event on the running collector.  Once `Run` has
returned, the loop observes nothing further. -/
def stepSys (o : Oracle) (ft : TagFilter) (st : RunState) (e : SysEvent) : RunState :=
  if st.returned then st
  else
    match e with
    | SysEvent.ingest cs => { st with buffer := collect st.buffer cs }
    | SysEvent.tick =>
      let p := pushMetrics o ft st.buffer
      { st with buffer := p.buffer, calls := st.calls ++ p.calls, logs := st.logs ++ p.logs }
    | SysEvent.cancel =>
      let p := pushMetrics o ft st.buffer
      { buffer := p.buffer
        calls := st.calls ++ p.calls ++ [ClientCall.close]
        logs := st.logs ++ p.logs ++
          (o ClientCall.close).toList.map (fun e => "Error closing the client: " ++ e)
        returned := true }

/-- Run the collector over a finite event history. -/
def runSys (o : Oracle) (ft : TagFilter) (st : RunState) : List SysEvent → RunState
  | [] => st
  | e :: es => runSys o ft (stepSys o ft st e) es

/-- The samples still pending after an event history, starting from a
pending list: each tick empties the buffer, each ingest appends.  This is
the "samples ingested since the last tick". -/
def pendingAfter : List SysEvent → List Sample → List Sample
  | [], b => b
  | SysEvent.ingest cs :: es, b => pendingAfter es (collect b cs)
  | SysEvent.tick :: es, _ => pendingAfter es []
  | SysEvent.cancel :: es, b => pendingAfter es b

/-- Number of `Flush` calls in a client-call trace. -/
def flushCount (cs : List ClientCall) : Nat :=
  (cs.filter (fun c => match c with | ClientCall.flush => true | _ => false)).length

/-- Number of `Close` calls in a client-call trace. -/
def closeCount (cs : List ClientCall) : Nat :=
  (cs.filter (fun c => match c with | ClientCall.close => true | _ => false)).length

/-- The tag-list argument a client call carries (emission calls only;
`Flush`/`Close` take none). -/
def callTags : ClientCall → List String
  | ClientCall.count _ _ t _ => t
  | ClientCall.timing _ _ t _ => t
  | ClientCall.gauge _ _ t _ => t
  | ClientCall.flush => []
  | ClientCall.close => []

/-- A network client that never errors, used to evaluate the model on
concrete inputs. -/
def okOracle : Oracle := fun _ => none

/-- A client constructor that always succeeds, used to evaluate the model
on concrete inputs. -/
def okNewBuffered : NewBuffered :=
  fun a n => Except.ok { addr := a, bufferSize := n, Namespace := "" }

/-! ### Basic lemmas about the operations -/

theorem collect_eq (buf : List Sample) (cs : List (List StatsSample)) :
    collect buf cs = buf ++ cs.flatten.map generateDataPoint := by
  simp only [collect]
  split
  · rfl
  · next h =>
    have hnil : cs.flatten.map generateDataPoint = [] := by
      cases hx : cs.flatten.map generateDataPoint with
      | nil => rfl
      | cons a l => rw [hx] at h; simp at h
    rw [hnil, List.append_nil]

theorem pushMetrics_drained_buffer (o : Oracle) (ft : TagFilter) (buf : List Sample) :
    (pushMetrics o ft buf).drained ++ (pushMetrics o ft buf).buffer = buf := by
  unfold pushMetrics
  split
  · simp
  · simp

theorem pushMetrics_buffer_nil (o : Oracle) (ft : TagFilter) (buf : List Sample) :
    (pushMetrics o ft buf).buffer = [] := by
  unfold pushMetrics
  split
  · next h => simpa [List.isEmpty_iff] using h
  · rfl

theorem flushCount_append (a b : List ClientCall) :
    flushCount (a ++ b) = flushCount a + flushCount b := by
  simp [flushCount, List.filter_append]

theorem closeCount_append (a b : List ClientCall) :
    closeCount (a ++ b) = closeCount a + closeCount b := by
  simp [closeCount, List.filter_append]

theorem dispatchCalls_no_flush_close (ft : TagFilter) (e : Sample) :
    flushCount (dispatchCalls ft e) = 0 ∧ closeCount (dispatchCalls ft e) = 0 := by
  simp only [dispatchCalls]
  split_ifs <;> simp [flushCount, closeCount]

theorem commitLoop_calls (o : Oracle) (ft : TagFilter) (data : List Sample) :
    (commitLoop o ft data).1 = (data.map (dispatchCalls ft)).flatten := by
  induction data with
  | nil => rfl
  | cons e rest ih => simp [commitLoop, ih]

theorem commitLoop_logs (o : Oracle) (ft : TagFilter) (data : List Sample) :
    (commitLoop o ft data).2 = data.filterMap (dispatchLog o ft) := by
  induction data with
  | nil => rfl
  | cons e rest ih =>
    cases hd : dispatchLog o ft e <;> simp [commitLoop, ih, List.filterMap_cons, hd]

theorem commitLoop_no_flush_close (o : Oracle) (ft : TagFilter) (data : List Sample) :
    flushCount (commitLoop o ft data).1 = 0 ∧ closeCount (commitLoop o ft data).1 = 0 := by
  induction data with
  | nil => exact ⟨rfl, rfl⟩
  | cons e rest ih =>
    have hd := dispatchCalls_no_flush_close ft e
    simp [commitLoop, flushCount_append, closeCount_append, ih.1, ih.2, hd.1, hd.2]

theorem flushCount_single_flush : flushCount [ClientCall.flush] = 1 := rfl

theorem closeCount_single_flush : closeCount [ClientCall.flush] = 0 := rfl

theorem closeCount_single_close : closeCount [ClientCall.close] = 1 := rfl

theorem flushCount_single_close : flushCount [ClientCall.close] = 0 := rfl

theorem commit_flushCount (o : Oracle) (ft : TagFilter) (data : List Sample) :
    flushCount (commit o ft data).calls = 1 := by
  simp [commit, flushCount_append, (commitLoop_no_flush_close o ft data).1,
    flushCount_single_flush]

theorem commit_closeCount (o : Oracle) (ft : TagFilter) (data : List Sample) :
    closeCount (commit o ft data).calls = 0 := by
  simp [commit, closeCount_append, (commitLoop_no_flush_close o ft data).2,
    closeCount_single_flush]

theorem pushMetrics_flushCount (o : Oracle) (ft : TagFilter) (buf : List Sample) :
    flushCount (pushMetrics o ft buf).calls = if buf = [] then 0 else 1 := by
  unfold pushMetrics
  split
  · next h => simp [List.isEmpty_iff.mp h, flushCount]
  · next h =>
    have : ¬ buf = [] := by simpa [List.isEmpty_iff] using h
    simp [this, commit_flushCount]

theorem pushMetrics_closeCount (o : Oracle) (ft : TagFilter) (buf : List Sample) :
    closeCount (pushMetrics o ft buf).calls = 0 := by
  unfold pushMetrics
  split
  · rfl
  · simp [commit_closeCount]

/-! ### Invariant of the buffer trace machine -/

theorem stepOp_partition (o : Oracle) (ft : TagFilter) (st : TraceState) (op : Op) :
    (stepOp o ft st op).drains.flatten ++ (stepOp o ft st op).buffer =
      st.drains.flatten ++ (st.buffer ++ ingested [op]) := by
  cases op with
  | collect cs =>
    simp [stepOp, ingested, collect_eq]
  | push =>
    simp [stepOp, ingested, List.append_assoc, pushMetrics_drained_buffer]

theorem runOps_partition (o : Oracle) (ft : TagFilter) (ops : List Op) :
    ∀ st : TraceState,
      (runOps o ft st ops).drains.flatten ++ (runOps o ft st ops).buffer =
        st.drains.flatten ++ (st.buffer ++ ingested ops) := by
  induction ops with
  | nil => intro st; simp [runOps, ingested]
  | cons op ops ih =>
    intro st
    have hstep := stepOp_partition o ft st op
    calc (runOps o ft st (op :: ops)).drains.flatten ++ (runOps o ft st (op :: ops)).buffer
        = (stepOp o ft st op).drains.flatten ++
            ((stepOp o ft st op).buffer ++ ingested ops) := by
          simpa [runOps, List.append_assoc] using ih (stepOp o ft st op)
      _ = st.drains.flatten ++ (st.buffer ++ (ingested [op] ++ ingested ops)) := by
          rw [← List.append_assoc, hstep]; simp [List.append_assoc]
      _ = st.drains.flatten ++ (st.buffer ++ ingested (op :: ops)) := by
          cases op <;> simp [ingested]

/-! ### Lemmas about the Run loop -/

theorem runSys_returned_fix (o : Oracle) (ft : TagFilter) (es : List SysEvent) :
    ∀ st : RunState, st.returned = true → runSys o ft st es = st := by
  induction es with
  | nil => intro st _; rfl
  | cons e es ih =>
    intro st h
    have : stepSys o ft st e = st := by simp [stepSys, h]
    simp [runSys, this, ih st h]

theorem runSys_append (o : Oracle) (ft : TagFilter) (a b : List SysEvent) :
    ∀ st : RunState, runSys o ft st (a ++ b) = runSys o ft (runSys o ft st a) b := by
  induction a with
  | nil => intro st; rfl
  | cons e a ih => intro st; simp [runSys, ih]

theorem runSys_no_cancel (o : Oracle) (ft : TagFilter) (es : List SysEvent)
    (hes : SysEvent.cancel ∉ es) :
    ∀ st : RunState, st.returned = false →
      (runSys o ft st es).returned = false ∧
      (runSys o ft st es).buffer = pendingAfter es st.buffer ∧
      closeCount (runSys o ft st es).calls = closeCount st.calls := by
  induction es with
  | nil => intro st h; exact ⟨h, rfl, rfl⟩
  | cons e es ih =>
    intro st h
    have hne : e ≠ SysEvent.cancel := fun hx => hes (hx ▸ List.mem_cons_self e es)
    have hes' : SysEvent.cancel ∉ es := fun hx => hes (List.mem_cons_of_mem e hx)
    cases e with
    | ingest cs =>
      have := ih hes' { st with buffer := collect st.buffer cs } (by simpa using h)
      simpa [runSys, stepSys, h, pendingAfter] using this
    | tick =>
      have hbuf := pushMetrics_buffer_nil o ft st.buffer
      have hcc := pushMetrics_closeCount o ft st.buffer
      have := ih hes'
        { st with buffer := (pushMetrics o ft st.buffer).buffer
                , calls := st.calls ++ (pushMetrics o ft st.buffer).calls
                , logs := st.logs ++ (pushMetrics o ft st.buffer).logs } (by simpa using h)
      simpa [runSys, stepSys, h, pendingAfter, hbuf, closeCount_append, hcc] using this
    | cancel => exact absurd rfl hne

/-! ### Claim theorems: the dispatcher -/

/-- C2: a Rate-kind sample whose tag map has a non-empty check tag is
emitted as exactly one counter increment of 1 on the derived name
`check.<checkname>.pass` when the value is nonzero and
`check.<checkname>.fail` when it is zero; the sample's own metric name is
not used. -/
theorem rate_check_derived_counter (ft : TagFilter) (e : Sample)
    (h : e.type = Rate) (hc : lookupTag e.Tags "check" ≠ "") :
    dispatchCalls ft e =
      [ClientCall.count
        ("check." ++ lookupTag e.Tags "check" ++ "." ++
          (if e.Value = 0 then "fail" else "pass"))
        1 (tagListOf ft e.Tags) 1] := by
  simp [dispatchCalls, h, Rate, Counter, Trend, Gauge, hc, checkToString]

/-- Witness for C2: a Rate sample with tag check=checkA and value 1 is
emitted on `check.checkA.pass` with delta 1. -/
theorem rate_check_derived_counter_witness :
    dispatchCalls none { type := 3, Metric := "m", Value := 1, Tags := [("check", "checkA")] } =
      [ClientCall.count "check.checkA.pass" 1 [] 1] := by
  rw [rate_check_derived_counter none
    { type := 3, Metric := "m", Value := 1, Tags := [("check", "checkA")] } rfl (by decide)]
  decide

/-- C4 as stated is false: the source converts the float value with
`int64(entry.Value)`, so a Counter sample of value 5/2 is emitted with
delta 2, which is not the sample's raw value. -/
theorem counter_raw_value_counterexample :
    dispatchCalls none { type := 0, Metric := "m", Value := Rat.mk' 5 2, Tags := [] } =
      [ClientCall.count "m" 2 [] 1] ∧ ((2 : Rat) ≠ Rat.mk' 5 2) := by
  constructor
  · decide
  · decide

/-- C4 (amended): a Counter-kind sample, and a Rate-kind sample with no
non-empty check tag, is emitted as one counter increment on its own
metric name whose delta is the value truncated toward zero (the Go
`int64` conversion); it equals the raw value only when that value is
integral. -/
theorem counter_emits_truncated (ft : TagFilter) (e : Sample)
    (h : e.type = Counter ∨ (e.type = Rate ∧ lookupTag e.Tags "check" = "")) :
    dispatchCalls ft e =
      [ClientCall.count e.Metric (truncToInt e.Value) (tagListOf ft e.Tags) 1] := by
  rcases h with h | ⟨h, hc⟩
  · simp [dispatchCalls, h]
  · simp [dispatchCalls, h, Rate, Counter, Trend, Gauge, hc]

/-- Witness for C4 (amended): a Counter sample of value 7/2 is emitted
with delta 3. -/
theorem counter_emits_truncated_witness :
    dispatchCalls none { type := 0, Metric := "n", Value := Rat.mk' 7 2, Tags := [] } =
      [ClientCall.count "n" 3 [] 1] := by
  rw [counter_emits_truncated none
    { type := 0, Metric := "n", Value := Rat.mk' 7 2, Tags := [] } (Or.inl rfl)]
  decide

/-- C9: a sample whose kind is none of Counter, Trend, Gauge or Rate
matches no case of the dispatch switch: no client call is made, the error
variable stays nil and nothing is logged. -/
theorem unknown_kind_silent (o : Oracle) (ft : TagFilter) (e : Sample)
    (h0 : e.type ≠ Counter) (h1 : e.type ≠ Gauge) (h2 : e.type ≠ Trend) (h3 : e.type ≠ Rate) :
    dispatchCalls ft e = [] ∧ dispatchErr o ft e = none ∧ dispatchLog o ft e = none := by
  have hc : dispatchCalls ft e = [] := by simp [dispatchCalls, h0, h1, h2, h3]
  exact ⟨hc, by simp [dispatchErr, hc], by simp [dispatchLog, dispatchErr, hc]⟩

/-- Witness for C9: a sample of kind 7 is silently discarded. -/
theorem unknown_kind_silent_witness :
    dispatchCalls none { type := 7, Metric := "m", Value := 1, Tags := [] } = [] ∧
    dispatchErr okOracle none { type := 7, Metric := "m", Value := 1, Tags := [] } = none ∧
    dispatchLog okOracle none { type := 7, Metric := "m", Value := 1, Tags := [] } = none := by
  exact unknown_kind_silent okOracle none { type := 7, Metric := "m", Value := 1, Tags := [] }
    (by decide) (by decide) (by decide) (by decide)

/-! ### Claim theorems: initialization, batching and tags -/

/-- C5: with an empty endpoint address, Init returns an error and leaves
the Client field unchanged (no client is constructed); with a non-empty
address and a successful client construction, Init returns no error and,
when a non-empty namespace is configured, installs it as the client's
metric-name prefix. -/
theorem init_address_and_namespace (nb : NewBuffered) (cfg : Config)
    (client0 : Option ClientState) :
    (cfg.Addr = "" →
      (Init nb cfg client0).err.isSome = true ∧ (Init nb cfg client0).client = client0) ∧
    (∀ cl : ClientState, cfg.Addr ≠ "" → nb cfg.Addr cfg.BufferSize = Except.ok cl →
      (Init nb cfg client0).err = none ∧
      (Init nb cfg client0).client =
        some (if cfg.Namespace = "" then cl else { cl with Namespace := cfg.Namespace })) := by
  constructor
  · intro h
    simp [Init, h]
  · intro cl ha hnb
    by_cases hn : cfg.Namespace = "" <;> simp [Init, ha, hnb, hn]

/-- Witness for C5: an empty address is rejected without touching the
Client field; a good address with namespace `k6.` yields a client whose
prefix is `k6.`. -/
theorem init_address_and_namespace_witness :
    (Init okNewBuffered { Addr := "", Namespace := "k6.", BufferSize := 5, PushInterval := 1 }
        none).client = none ∧
    (Init okNewBuffered
        { Addr := "localhost:8125", Namespace := "k6.", BufferSize := 5, PushInterval := 1 }
        none).err = none ∧
    (Init okNewBuffered
        { Addr := "localhost:8125", Namespace := "k6.", BufferSize := 5, PushInterval := 1 }
        none).client =
      some { addr := "localhost:8125", bufferSize := 5, Namespace := "k6." } := by
  refine ⟨((init_address_and_namespace okNewBuffered
    { Addr := "", Namespace := "k6.", BufferSize := 5, PushInterval := 1 } none).1 rfl).2,
    ?_, ?_⟩
  · exact ((init_address_and_namespace okNewBuffered
      { Addr := "localhost:8125", Namespace := "k6.", BufferSize := 5, PushInterval := 1 }
      none).2
      { addr := "localhost:8125", bufferSize := 5, Namespace := "" } (by decide) rfl).1
  · have h := ((init_address_and_namespace okNewBuffered
      { Addr := "localhost:8125", Namespace := "k6.", BufferSize := 5, PushInterval := 1 }
      none).2
      { addr := "localhost:8125", bufferSize := 5, Namespace := "" } (by decide) rfl).2
    simpa using h

/-- C6: pushMetrics on an empty buffer makes no client call (no dispatch
and no flush), drains nothing, logs nothing, and leaves the buffer
empty. -/
theorem pushMetrics_empty_noop (o : Oracle) (ft : TagFilter) :
    pushMetrics o ft [] = { buffer := [], drained := [], calls := [], logs := [] } := rfl

/-- C7: commit dispatches every sample of the batch in original order,
then makes exactly one Flush call (the last client call), and returns
exactly the flush error; per-sample emission errors are logged and never
returned. -/
theorem commit_batch_spec (o : Oracle) (ft : TagFilter) (data : List Sample) :
    (commit o ft data).calls = (data.map (dispatchCalls ft)).flatten ++ [ClientCall.flush] ∧
    flushCount (commit o ft data).calls = 1 ∧
    (commit o ft data).err = o ClientCall.flush ∧
    (commit o ft data).logs = data.filterMap (dispatchLog o ft) := by
  refine ⟨?_, commit_flushCount o ft data, rfl, ?_⟩
  · simp [commit, commitLoop_calls]
  · simp [commit, commitLoop_logs]

/-- C8: every client call dispatch makes for a sample carries exactly the
tag list derived from the configured filter — the empty list when no
filter is configured, `f` applied to the sample's tags otherwise — and
this holds uniformly, including the derived check counter. -/
theorem dispatch_tags_uniform (ft : TagFilter) (e : Sample) (c : ClientCall)
    (hc : c ∈ dispatchCalls ft e) :
    callTags c = tagListOf ft e.Tags ∧ (ft = none → callTags c = []) := by
  have h1 : callTags c = tagListOf ft e.Tags := by
    simp only [dispatchCalls] at hc
    split_ifs at hc <;> simp at hc <;> subst hc <;> rfl
  exact ⟨h1, fun hft => by simp [h1, hft, tagListOf]⟩

/-- Witness for C8: the derived check counter of a Rate sample carries
the filtered tag list. -/
theorem dispatch_tags_uniform_witness :
    ClientCall.count "check.checkA.pass" 1 ["check:checkA"] 1 ∈
      dispatchCalls (some (fun ts => ts.map (fun p => p.1 ++ ":" ++ p.2)))
        { type := 3, Metric := "m", Value := 1, Tags := [("check", "checkA")] } ∧
    callTags (ClientCall.count "check.checkA.pass" 1 ["check:checkA"] 1) =
      tagListOf (some (fun ts => ts.map (fun p => p.1 ++ ":" ++ p.2)))
        [("check", "checkA")] := by
  refine ⟨by decide, ?_⟩
  exact (dispatch_tags_uniform (some (fun ts => ts.map (fun p => p.1 ++ ":" ++ p.2)))
    { type := 3, Metric := "m", Value := 1, Tags := [("check", "checkA")] }
    (ClientCall.count "check.checkA.pass" 1 ["check:checkA"] 1) (by decide)).1

/-- C10: Init succeeds for any push-interval value, including zero and
negative ones — only the address and the client construction are
validated. -/
theorem init_ignores_pushInterval (nb : NewBuffered) (cfg : Config)
    (client0 : Option ClientState) (cl : ClientState) (p : Int)
    (ha : cfg.Addr ≠ "") (hnb : nb cfg.Addr cfg.BufferSize = Except.ok cl) :
    (Init nb { cfg with PushInterval := p } client0).err = none := by
  by_cases hn : cfg.Namespace = "" <;> simp [Init, ha, hnb, hn]

/-- Witness for C10: Init succeeds with a negative push interval. -/
theorem init_ignores_pushInterval_witness :
    (Init okNewBuffered
        { Addr := "localhost:8125", Namespace := "", BufferSize := 5, PushInterval := -1 }
        none).err = none := by
  exact init_ignores_pushInterval okNewBuffered
    { Addr := "localhost:8125", Namespace := "", BufferSize := 5, PushInterval := 0 }
    none { addr := "localhost:8125", bufferSize := 5, Namespace := "" } (-1)
    (by decide) rfl

/-! ### Claim theorems: the buffer trace and the Run loop -/

theorem runOps_append (o : Oracle) (ft : TagFilter) (a b : List Op) :
    ∀ st : TraceState, runOps o ft st (a ++ b) = runOps o ft (runOps o ft st a) b := by
  induction a with
  | nil => intro st; rfl
  | cons op a ih => intro st; simp [runOps, ih]

theorem pushMetrics_drained (o : Oracle) (ft : TagFilter) (buf : List Sample) :
    (pushMetrics o ft buf).drained = buf := by
  have h := pushMetrics_drained_buffer o ft buf
  rw [pushMetrics_buffer_nil o ft buf] at h
  simpa using h

/-- C1 (amended): over any interleaving of Collect and pushMetrics calls,
the concatenation of the drained batches followed by the samples still
pending in the buffer equals the sequence of all ingested samples in
insertion order — so each sample is drained at most once, in relative
insertion order, and when the interleaving ends with a drain the drains
together contain exactly the ingested samples, each in exactly one
drain. -/
theorem drains_account_for_ingested :
    (∀ (o : Oracle) (ft : TagFilter) (ops : List Op),
      (runOps o ft initTrace ops).drains.flatten ++ (runOps o ft initTrace ops).buffer =
        ingested ops) ∧
    (∀ (o : Oracle) (ft : TagFilter) (ops : List Op),
      (runOps o ft initTrace (ops ++ [Op.push])).drains.flatten =
        ingested (ops ++ [Op.push])) := by
  have key : ∀ (o : Oracle) (ft : TagFilter) (ops : List Op),
      (runOps o ft initTrace ops).drains.flatten ++ (runOps o ft initTrace ops).buffer =
        ingested ops := by
    intro o ft ops
    simpa [initTrace] using runOps_partition o ft ops initTrace
  refine ⟨key, fun o ft ops => ?_⟩
  have hbuf : (runOps o ft initTrace (ops ++ [Op.push])).buffer = [] := by
    rw [runOps_append]
    simp [runOps, stepOp, pushMetrics_buffer_nil]
  have h := key o ft (ops ++ [Op.push])
  rw [hbuf, List.append_nil] at h
  exact h

/-- C1 as stated is false: after a single Collect of one sample with no
drain, the multiset union of all drained sequences is empty while one
sample was ingested. -/
theorem drains_counterexample :
    ((runOps okOracle none initTrace
        [Op.collect [[{ metricName := "m", metricType := 0, value := 1, tags := [] }]]]
      ).drains.flatten : Multiset Sample) ≠
      (ingested [Op.collect [[{ metricName := "m", metricType := 0, value := 1, tags := [] }]]] :
        Multiset Sample) := by
  decide

/-- C3 (amended): when Run observes cancellation after a cancel-free
prefix of ticks and ingests, it performs one final pushMetrics — which
issues exactly one flush when samples are pending (exactly those ingested
since the last tick) and no client call at all when the buffer is empty —
followed by exactly one close of the client, and then returns, ignoring
any further events. -/
theorem run_cancel_behaviour (o : Oracle) (ft : TagFilter) (pre rest : List SysEvent)
    (hpre : SysEvent.cancel ∉ pre) (S : RunState) (P : PushOut)
    (hS : S = runSys o ft initRun pre) (hP : P = pushMetrics o ft S.buffer) :
    (runSys o ft initRun (pre ++ SysEvent.cancel :: rest)).calls =
        S.calls ++ P.calls ++ [ClientCall.close] ∧
    (runSys o ft initRun (pre ++ SysEvent.cancel :: rest)).returned = true ∧
    P.drained = S.buffer ∧
    S.buffer = pendingAfter pre [] ∧
    flushCount P.calls = (if S.buffer = [] then 0 else 1) ∧
    closeCount (runSys o ft initRun (pre ++ SysEvent.cancel :: rest)).calls = 1 := by
  subst hS
  subst hP
  obtain ⟨hret, hbuf, hclose⟩ := runSys_no_cancel o ft pre hpre initRun rfl
  have hsplit : runSys o ft initRun (pre ++ SysEvent.cancel :: rest) =
      runSys o ft
        (stepSys o ft (runSys o ft initRun pre) SysEvent.cancel) rest := by
    rw [runSys_append]; rfl
  have hstep : stepSys o ft (runSys o ft initRun pre) SysEvent.cancel =
      { buffer := (pushMetrics o ft (runSys o ft initRun pre).buffer).buffer
        calls := (runSys o ft initRun pre).calls ++
          (pushMetrics o ft (runSys o ft initRun pre).buffer).calls ++ [ClientCall.close]
        logs := (runSys o ft initRun pre).logs ++
          (pushMetrics o ft (runSys o ft initRun pre).buffer).logs ++
          (o ClientCall.close).toList.map (fun e => "Error closing the client: " ++ e)
        returned := true } := by
    simp [stepSys, hret, List.append_assoc]
  have hfix : runSys o ft initRun (pre ++ SysEvent.cancel :: rest) =
      stepSys o ft (runSys o ft initRun pre) SysEvent.cancel := by
    rw [hsplit, runSys_returned_fix]
    rw [hstep]
  rw [hfix, hstep]
  have hclose0 : closeCount (runSys o ft initRun pre).calls = 0 := by
    simpa [initRun, closeCount] using hclose
  refine ⟨by simp [List.append_assoc], rfl, pushMetrics_drained o ft _, ?_, ?_, ?_⟩
  · simpa [initRun] using hbuf
  · exact pushMetrics_flushCount o ft _
  · simp [closeCount_append, hclose0, pushMetrics_closeCount, closeCount_single_close]

/-- Witness for C3 (amended): after one ingested sample and no tick,
cancellation flushes that sample and closes the client. -/
theorem run_cancel_behaviour_witness :
    (runSys okOracle none initRun
        ([SysEvent.ingest [[{ metricName := "m", metricType := 0, value := 1, tags := [] }]]] ++
          SysEvent.cancel :: [])).calls =
      [ClientCall.count "m" 1 [] 1, ClientCall.flush, ClientCall.close] ∧
    (runSys okOracle none initRun
        ([SysEvent.ingest [[{ metricName := "m", metricType := 0, value := 1, tags := [] }]]] ++
          SysEvent.cancel :: [])).returned = true := by
  have h := run_cancel_behaviour okOracle none
    [SysEvent.ingest [[{ metricName := "m", metricType := 0, value := 1, tags := [] }]]] []
    (by decide)
    (runSys okOracle none initRun
      [SysEvent.ingest [[{ metricName := "m", metricType := 0, value := 1, tags := [] }]]])
    (pushMetrics okOracle none
      (runSys okOracle none initRun
        [SysEvent.ingest [[{ metricName := "m", metricType := 0, value := 1, tags := [] }]]]).buffer)
    rfl rfl
  refine ⟨?_, h.2.1⟩
  rw [h.1]
  decide

/-- C3 as stated is false: cancellation with an empty buffer issues no
flush at all — the only client call is the close. -/
theorem run_cancel_counterexample :
    (runSys okOracle none initRun [SysEvent.cancel]).calls = [ClientCall.close] ∧
    flushCount (runSys okOracle none initRun [SysEvent.cancel]).calls ≠ 1 := by
  exact ⟨by decide, by decide⟩
